import Mathlib

/-!
Verification of the key/certificate engine of `terraform-provider-tls`
(`internal/provider/common_key.go` plus the behavior pinned down by
`internal/provider/resource_self_signed_cert_test.go`).

Shallow embedding conventions:
* Go dynamic key values (`crypto.PrivateKey`, an interface holding pointer or
  value forms of `rsa.PrivateKey`, `ecdsa.PrivateKey`, `ed25519.PrivateKey`)
  become the inductive `GoPrivateKey`, with separate constructors for pointer
  and value forms since Go method sets distinguish them.
* Key material is symbolic: a key is identified by its generation parameters
  and an entropy seed; public-key derivation is the deterministic projection
  of that data.
* DER payloads and PEM framing are symbolic (`DERBytes`, `Bytes`): enough
  structure to express which parser accepts which payload and the byte counts
  the decode-failure diagnostic reports.
* Errors are the Go error strings, built with `++` exactly as the source's
  `fmt.Errorf` formats build them.
* Code of this repository that is not under `src/` (the expiry policy, the
  self-signed-cert validation and issuance, the private-key PEM export, the
  PEM preamble registry, the schema constants) is modelled from the spec; each
  such definition carries a doc comment starting `Modelled from the spec:`.
-/

namespace TLSProvider

/-- Modelled from the spec: the closed algorithm enumeration {RSA, ECDSA,
ED25519}. In the source this is the string-typed `Algorithm` with constants
`RSA`, `ECDSA`, `ED25519` declared in a file not under `src/`. -/
inductive Algorithm where
  | RSA
  | ECDSA
  | ED25519
deriving DecidableEq, Repr

/-- Modelled from the spec: the four elliptic curves `elliptic.P224()` ...
`elliptic.P521()` an ECDSA key can be generated on. -/
inductive EllipticCurve where
  | p224
  | p256
  | p384
  | p521
deriving DecidableEq, Repr

/-- Symbolic material of an `rsa.PrivateKey`: the requested bit size and an
entropy seed standing for the bytes drawn from `rand.Reader`. -/
structure RSAKeyData where
  bits : Nat
  seed : Nat
deriving DecidableEq, Repr

/-- Symbolic material of an `ecdsa.PrivateKey`: the curve and an entropy
seed. -/
structure ECDSAKeyData where
  curve : EllipticCurve
  seed : Nat
deriving DecidableEq, Repr

/-- Symbolic material of an `ed25519.PrivateKey`: an entropy seed. -/
structure Ed25519KeyData where
  seed : Nat
deriving DecidableEq, Repr

/-- A Go `crypto.PrivateKey` interface value. Pointer and value forms are
distinct constructors because Go method sets differ between them: `Public()`
is declared on `*rsa.PrivateKey` and `*ecdsa.PrivateKey` (pointer receivers)
but on the `ed25519.PrivateKey` value type. `other` stands for any further
dynamic type, with a flag recording whether it implements `crypto.Signer`. -/
inductive GoPrivateKey where
  | rsaPtr (k : RSAKeyData)
  | rsaVal (k : RSAKeyData)
  | ecdsaPtr (k : ECDSAKeyData)
  | ecdsaVal (k : ECDSAKeyData)
  | ed25519Val (k : Ed25519KeyData)
  | ed25519Ptr (k : Ed25519KeyData)
  | other (typeName : String) (isSigner : Bool)
deriving DecidableEq, Repr

/-- A Go `crypto.PublicKey` interface value: the public counterpart of a
private key, a deterministic projection of the symbolic key material. -/
inductive GoPublicKey where
  | rsa (k : RSAKeyData)
  | ecdsa (k : ECDSAKeyData)
  | ed25519 (k : Ed25519KeyData)
  | foreign (typeName : String)
deriving DecidableEq, Repr

/-- The Go `%T` rendering of a `crypto.PrivateKey` dynamic type. -/
def GoPrivateKey.typeName : GoPrivateKey → String
  | .rsaPtr _ => "*rsa.PrivateKey"
  | .rsaVal _ => "rsa.PrivateKey"
  | .ecdsaPtr _ => "*ecdsa.PrivateKey"
  | .ecdsaVal _ => "ecdsa.PrivateKey"
  | .ed25519Val _ => "ed25519.PrivateKey"
  | .ed25519Ptr _ => "*ed25519.PrivateKey"
  | .other n _ => n

/-- Whether the dynamic type implements `crypto.Signer` (has a `Public()`
method in its method set). Pointer forms of `rsa`/`ecdsa` keys do; their value
forms do not (pointer receiver). Both forms of `ed25519.PrivateKey` do (value
receiver). -/
def GoPrivateKey.isSignerType : GoPrivateKey → Bool
  | .rsaPtr _ => true
  | .rsaVal _ => false
  | .ecdsaPtr _ => true
  | .ecdsaVal _ => false
  | .ed25519Val _ => true
  | .ed25519Ptr _ => true
  | .other _ s => s

/-- The `Public()` method of the `crypto.Signer` interface, as a projection of
the symbolic key material (only meaningful on signer types). -/
def GoPrivateKey.publicPart : GoPrivateKey → GoPublicKey
  | .rsaPtr k => .rsa k
  | .rsaVal k => .rsa k
  | .ecdsaPtr k => .ecdsa k
  | .ecdsaVal k => .ecdsa k
  | .ed25519Val k => .ed25519 k
  | .ed25519Ptr k => .ed25519 k
  | .other n _ => .foreign n

/-- `privateKeyToPublicKey` (common_key.go): type-asserts `crypto.Signer` and
calls `Public()`; fails on dynamic types outside the `crypto.Signer`
interface. -/
def privateKeyToPublicKey (prvKey : GoPrivateKey) : Except String GoPublicKey :=
  if prvKey.isSignerType then
    .ok prvKey.publicPart
  else
    .error ("unsupported private key type: " ++ prvKey.typeName)

/-- `privateKeyToAlgorithm` (common_key.go): switches on the concrete dynamic
type, accepting both value and pointer forms of each supported key type. -/
def privateKeyToAlgorithm (prvKey : GoPrivateKey) : Except String Algorithm :=
  match prvKey with
  | .rsaPtr _ => .ok .RSA
  | .rsaVal _ => .ok .RSA
  | .ecdsaPtr _ => .ok .ECDSA
  | .ecdsaVal _ => .ok .ECDSA
  | .ed25519Val _ => .ok .ED25519
  | .ed25519Ptr _ => .ok .ED25519
  | .other n _ => .error ("unsupported private key type: " ++ n)

/-! ## Expiry / early-renewal policy -/

/-- Modelled from the spec: a certificate spec, reduced to the fields the
claims touch. `validity_period_hours` and `early_renewal_hours` are Go `int`
values (possibly negative before validation), hence `Int`. -/
structure CertificateSpec where
  validityPeriodHours : Int
  earlyRenewalHours : Int
  setSubjectKeyID : Bool
deriving DecidableEq, Repr

/-- Modelled from the spec: the expiry policy of the certificate resources
(code not under `src/`; behavior pinned by
`TestAccSelfSignedCertRecreatesAfterExpired`). Timestamps are measured in
whole hours on an `Int` axis — every quantity the spec and tests use is a
whole number of hours. Deadline = issuedAt + ValidityHours − EarlyRenewalHours;
the certificate is current iff `asOf` is strictly before the deadline. -/
def isCurrent (issuedAt : Int) (spec : CertificateSpec) (asOf : Int) : Bool :=
  asOf < issuedAt + spec.validityPeriodHours - spec.earlyRenewalHours

/-- Modelled from the spec: on each read the resource recomputes the deadline
from the *stored* issuance time and the *current* spec, and schedules
regeneration exactly when the certificate is no longer current (behavior
pinned by `TestAccSelfSignedCertNotRecreatedForEarlyRenewalUpdateInFuture`). -/
def needsRegeneration (storedIssuedAt : Int) (spec : CertificateSpec) (asOf : Int) : Bool :=
  !(isCurrent storedIssuedAt spec asOf)

/-! ## Key generation -/

/-- The slice of `*schema.ResourceData` the key generators read:
`d.Get("rsa_bits")` and `d.Get("ecdsa_curve")`. -/
structure ResourceData where
  rsaBits : Nat
  ecdsaCurve : String
deriving DecidableEq, Repr

/-- Modelled from the spec: the `ECDSACurve` string constant `P224` (constants
declared in a file not under `src/`; names fixed by the spec's curve set). -/
def P224 : String := "P224"

/-- Modelled from the spec: the `ECDSACurve` string constant `P256`. -/
def P256 : String := "P256"

/-- Modelled from the spec: the `ECDSACurve` string constant `P384`. -/
def P384 : String := "P384"

/-- Modelled from the spec: the `ECDSACurve` string constant `P521`. -/
def P521 : String := "P521"

/-- Modelled from the spec: `SupportedECDSACurves()`, the list of supported
curve tags rendered into the invalid-curve error message. -/
def SupportedECDSACurves : List String := [P224, P256, P384, P521]

/-- The Go `%v` rendering of the supported-curves slice. -/
def renderCurveList (cs : List String) : String :=
  "[" ++ String.intercalate " " cs ++ "]"

/-- The `RSA` entry of `keyGenerators` (common_key.go): reads `rsa_bits` and
calls `rsa.GenerateKey(rand.Reader, rsaBits)`, which returns an
`*rsa.PrivateKey`. Entropy is the explicit `seed`; primitive-level failure is
not modelled (it would be propagated unchanged). -/
def rsaKeyGenerator (d : ResourceData) (seed : Nat) : Except String GoPrivateKey :=
  .ok (.rsaPtr ⟨d.rsaBits, seed⟩)

/-- The `ECDSA` entry of `keyGenerators` (common_key.go): reads `ecdsa_curve`
and switches over the four supported curve tags, calling
`ecdsa.GenerateKey(elliptic.PXXX(), rand.Reader)` (an `*ecdsa.PrivateKey`) on
a match and failing with the supported-curve list otherwise. -/
def ecdsaKeyGenerator (d : ResourceData) (seed : Nat) : Except String GoPrivateKey :=
  if d.ecdsaCurve = P224 then .ok (.ecdsaPtr ⟨.p224, seed⟩)
  else if d.ecdsaCurve = P256 then .ok (.ecdsaPtr ⟨.p256, seed⟩)
  else if d.ecdsaCurve = P384 then .ok (.ecdsaPtr ⟨.p384, seed⟩)
  else if d.ecdsaCurve = P521 then .ok (.ecdsaPtr ⟨.p521, seed⟩)
  else .error ("invalid ECDSA curve; supported values are: " ++ renderCurveList SupportedECDSACurves)

/-- The `ED25519` entry of `keyGenerators` (common_key.go):
`ed25519.GenerateKey(rand.Reader)` returns the value-form
`ed25519.PrivateKey`. -/
def ed25519KeyGenerator (_d : ResourceData) (seed : Nat) : Except String GoPrivateKey :=
  .ok (.ed25519Val ⟨seed⟩)

/-- `keyGenerators` (common_key.go): the dispatch map from `Algorithm` to
generator; total over the three algorithm tags, as the Go map is. -/
def keyGenerators : Algorithm → (ResourceData → Nat → Except String GoPrivateKey)
  | .RSA => rsaKeyGenerator
  | .ECDSA => ecdsaKeyGenerator
  | .ED25519 => ed25519KeyGenerator

/-! ## PEM / DER model and private-key parsing -/

/-- Symbolic DER payload of a PEM block: which concrete encoding it is and,
for key encodings, the key material it encodes. `junk` stands for a payload
malformed for every key encoding. -/
inductive DERBytes where
  | pkcs1RSA (k : RSAKeyData)
  | sec1EC (k : ECDSAKeyData)
  | pkcs8RSA (k : RSAKeyData)
  | pkcs8EC (k : ECDSAKeyData)
  | pkcs8Ed25519 (k : Ed25519KeyData)
  | junk (tag : Nat)
deriving DecidableEq, Repr

/-- A decoded `pem.Block`: the type label and the DER payload. -/
structure PEMBlock where
  type : String
  bytes : DERBytes
deriving DecidableEq, Repr

/-- Symbolic byte sequence handed to `parsePrivateKeyPEM`: either the PEM
encoding of one block (with the symbolic byte lengths of the encoded block
and of the trailing bytes after it) or bytes containing no decodable PEM
block. -/
inductive Bytes where
  | pemEncoded (block : PEMBlock) (encodedLen trailingLen : Nat)
  | noPEM (len : Nat)
deriving DecidableEq, Repr

/-- Total byte count of a symbolic byte sequence. -/
def Bytes.length : Bytes → Nat
  | .pemEncoded _ e t => e + t
  | .noPEM n => n

/-- `pem.Decode`: returns the first PEM block and the remaining bytes (here,
their count). Per the Go contract, when no block is found the whole input is
returned as `rest`. -/
def pemDecode : Bytes → Option PEMBlock × Nat
  | .pemEncoded b _ t => (some b, t)
  | .noPEM n => (none, n)

/-- Modelled from the spec: the PEM preamble enumeration (declared in a file
not under `src/`): private key variants, public key, certificate, certificate
request. -/
inductive PEMPreamble where
  | PreamblePrivateKeyRSA
  | PreamblePrivateKeyEC
  | PreamblePrivateKeyPKCS8
  | PreamblePublicKey
  | PreambleCertificate
  | PreambleCertificateRequest
deriving DecidableEq, Repr

/-- The PEM type label of each preamble (the `String()` method). -/
def PEMPreamble.toStr : PEMPreamble → String
  | .PreamblePrivateKeyRSA => "RSA PRIVATE KEY"
  | .PreamblePrivateKeyEC => "EC PRIVATE KEY"
  | .PreamblePrivateKeyPKCS8 => "PRIVATE KEY"
  | .PreamblePublicKey => "PUBLIC KEY"
  | .PreambleCertificate => "CERTIFICATE"
  | .PreambleCertificateRequest => "CERTIFICATE REQUEST"

/-- Modelled from the spec: `PEMBlockToPEMPreamble` (declared in a file not
under `src/`): maps the block's type label to its preamble, failing on an
unknown label. -/
def PEMBlockToPEMPreamble (block : PEMBlock) : Except String PEMPreamble :=
  if block.type = "RSA PRIVATE KEY" then .ok .PreamblePrivateKeyRSA
  else if block.type = "EC PRIVATE KEY" then .ok .PreamblePrivateKeyEC
  else if block.type = "PRIVATE KEY" then .ok .PreamblePrivateKeyPKCS8
  else if block.type = "PUBLIC KEY" then .ok .PreamblePublicKey
  else if block.type = "CERTIFICATE" then .ok .PreambleCertificate
  else if block.type = "CERTIFICATE REQUEST" then .ok .PreambleCertificateRequest
  else .error ("unknown PEM preamble: " ++ block.type)

/-- `x509.ParsePKCS1PrivateKey`: accepts exactly PKCS#1 RSA payloads and
returns an `*rsa.PrivateKey`. The message for a malformed payload is symbolic
(no verified property depends on it). -/
def parsePKCS1PrivateKey (der : DERBytes) : Except String GoPrivateKey :=
  match der with
  | .pkcs1RSA k => .ok (.rsaPtr k)
  | _ => .error "x509: malformed PKCS#1 private key"

/-- `x509.ParseECPrivateKey`: accepts exactly SEC 1 EC payloads and returns an
`*ecdsa.PrivateKey`. -/
def parseECPrivateKey (der : DERBytes) : Except String GoPrivateKey :=
  match der with
  | .sec1EC k => .ok (.ecdsaPtr k)
  | _ => .error "x509: malformed EC private key"

/-- `x509.ParsePKCS8PrivateKey`: accepts PKCS#8 payloads; returns
`*rsa.PrivateKey`, `*ecdsa.PrivateKey`, or the value-form
`ed25519.PrivateKey`, per the Go documentation. -/
def parsePKCS8PrivateKey (der : DERBytes) : Except String GoPrivateKey :=
  match der with
  | .pkcs8RSA k => .ok (.rsaPtr k)
  | .pkcs8EC k => .ok (.ecdsaPtr k)
  | .pkcs8Ed25519 k => .ok (.ed25519Val k)
  | _ => .error "x509: malformed PKCS#8 private key"

/-- `keyParsers` (common_key.go): the map from PEM preamble to key parsing
function; only the three private-key preambles are present. -/
def keyParsers : PEMPreamble → Option (DERBytes → Except String GoPrivateKey)
  | .PreamblePrivateKeyRSA => some parsePKCS1PrivateKey
  | .PreamblePrivateKeyEC => some parseECPrivateKey
  | .PreamblePrivateKeyPKCS8 => some parsePKCS8PrivateKey
  | _ => none

/-- The decode-failure diagnostic of `parsePrivateKeyPEM`, exactly the
source's `fmt.Errorf("failed to decode PEM block: decoded bytes %d, undecoded
%d", len(keyPEMBytes)-len(rest), len(rest))`. -/
def decodeErrorMessage (decoded undecoded : Nat) : String :=
  "failed to decode PEM block: decoded bytes " ++ toString decoded ++ ", undecoded " ++ toString undecoded

/-- `parsePrivateKeyPEM` (common_key.go): decode one PEM block, identify its
preamble, look up the parser, parse the payload, identify the algorithm. -/
def parsePrivateKeyPEM (keyPEMBytes : Bytes) : Except String (GoPrivateKey × Algorithm) :=
  match pemDecode keyPEMBytes with
  | (none, restLen) =>
      .error (decodeErrorMessage (keyPEMBytes.length - restLen) restLen)
  | (some pemBlock, _) =>
    match PEMBlockToPEMPreamble pemBlock with
    | .error e => .error e
    | .ok preamble =>
      match keyParsers preamble with
      | none => .error ("unable to determine parser for PEM preamble: " ++ preamble.toStr)
      | some parseKey =>
        match parseKey pemBlock.bytes with
        | .error e =>
            .error ("failed to parse private key given PEM preamble '" ++ preamble.toStr ++ "': " ++ e)
        | .ok prvKey =>
          match privateKeyToAlgorithm prvKey with
          | .error e =>
              .error ("failed to determine key algorithm for private key of type " ++ prvKey.typeName ++ ": " ++ e)
          | .ok algorithm => .ok (prvKey, algorithm)

/-- Modelled from the spec: the private-key PEM export (in a resource file not
under `src/`): RSA keys are exported as PKCS#1 in an "RSA PRIVATE KEY" block,
ECDSA keys as SEC 1 in an "EC PRIVATE KEY" block, ED25519 keys as PKCS#8 in a
"PRIVATE KEY" block ("format depends on algorithm per standard conventions").
The byte lengths of the encoding are symbolic parameters. -/
def exportPrivateKeyPEM (prvKey : GoPrivateKey) (encodedLen trailingLen : Nat) :
    Except String Bytes :=
  match prvKey with
  | .rsaPtr k => .ok (.pemEncoded ⟨"RSA PRIVATE KEY", .pkcs1RSA k⟩ encodedLen trailingLen)
  | .ecdsaPtr k => .ok (.pemEncoded ⟨"EC PRIVATE KEY", .sec1EC k⟩ encodedLen trailingLen)
  | .ed25519Val k => .ok (.pemEncoded ⟨"PRIVATE KEY", .pkcs8Ed25519 k⟩ encodedLen trailingLen)
  | k => .error ("unsupported private key type: " ++ k.typeName)

/-! ## Public-key artifact export (`setPublicKeyAttributes`) -/

/-- The caller-visible slice of `*schema.ResourceData` that
`setPublicKeyAttributes` mutates: the resource id (`d.SetId`) and the
attribute store (`d.Set`). Attributes are an association list; the most
recent `Set` for a key is the one `lookup` sees. -/
structure ResourceState where
  id : Option String
  attrs : List (String × String)
deriving DecidableEq, Repr

/-- Modelled from the spec: the public-key attribute names of the key
resources' schema (the schema declarations are not under `src/`; the spec's
output-artifact list fixes these four attributes). `d.Set` succeeds exactly
on keys present in the schema. -/
def publicKeySchemaKeys : List String :=
  ["public_key_pem", "public_key_openssh", "public_key_fingerprint_md5",
   "public_key_fingerprint_sha256"]

/-- `d.Set(key, value)`: records the value when the key is in the schema, and
returns an error for a key outside the schema. -/
def ResourceState.set (d : ResourceState) (key value : String) :
    Except String ResourceState :=
  if key ∈ publicKeySchemaKeys then
    .ok ⟨d.id, (key, value) :: d.attrs⟩
  else
    .error ("Invalid or unknown key: " ++ key)

/-- `d.SetId(id)`: sets the resource identifier; never fails. -/
def ResourceState.setId (d : ResourceState) (newId : String) : ResourceState :=
  ⟨some newId, d.attrs⟩

/-- Attribute lookup on the caller-visible state. -/
def ResourceState.getAttr (d : ResourceState) (key : String) : Option String :=
  d.attrs.lookup key

/-- `x509.MarshalPKIXPublicKey`, with the DER output symbolic: a string
determined by (and injective in) the public key. Fails on dynamic types
outside the supported set. -/
def marshalPKIXPublicKey : GoPublicKey → Except String String
  | .rsa k => .ok ("PKIX-RSA-" ++ toString k.bits ++ "-" ++ toString k.seed)
  | .ecdsa k => .ok ("PKIX-EC-" ++ toString (repr k.curve) ++ "-" ++ toString k.seed)
  | .ed25519 k => .ok ("PKIX-ED25519-" ++ toString k.seed)
  | .foreign n => .error ("x509: unsupported public key type: " ++ n)

/-- `pem.EncodeToMemory` of a block with the given type label and (symbolic)
payload. -/
def pemEncodeToMemory (label body : String) : String :=
  "-----BEGIN " ++ label ++ "-----\n" ++ body ++ "\n-----END " ++ label ++ "-----\n"

/-- Modelled from the spec: `hashForState` (in a util file not under
`src/`) — a deterministic hash of the public-key DER bytes used as the
resource identity. Symbolic: determinism is all any claim needs. -/
def hashForState (s : String) : String := "hash-" ++ s

/-- An `ssh.PublicKey` wire-format value, wrapping the public key it was built
from. -/
structure SSHPublicKey where
  pub : GoPublicKey
deriving DecidableEq, Repr

/-- Whether `x/crypto/ssh` can represent the public key in SSH wire format:
ECDSA is supported only on curves P-256, P-384 and P-521 (not P-224); RSA and
ED25519 are supported; other dynamic types are not. -/
def sshRepresentable : GoPublicKey → Bool
  | .rsa _ => true
  | .ecdsa k => !(k.curve = .p224)
  | .ed25519 _ => true
  | .foreign _ => false

/-- `ssh.NewPublicKey`: succeeds exactly on SSH-representable keys. -/
def sshNewPublicKey (pub : GoPublicKey) : Except String SSHPublicKey :=
  if sshRepresentable pub then .ok ⟨pub⟩
  else .error "ssh: unsupported key type"

/-- `ssh.MarshalAuthorizedKey`, symbolic: a non-empty authorized-keys line
determined by the key. -/
def sshMarshalAuthorizedKey (k : SSHPublicKey) : String :=
  "ssh-authorized-key " ++ toString (repr k.pub) ++ "\n"

/-- `ssh.FingerprintLegacyMD5`, symbolic. -/
def sshFingerprintLegacyMD5 (k : SSHPublicKey) : String :=
  "md5:" ++ toString (repr k.pub)

/-- `ssh.FingerprintSHA256`, symbolic. -/
def sshFingerprintSHA256 (k : SSHPublicKey) : String :=
  "SHA256:" ++ toString (repr k.pub)

/-- `setPublicKeyAttributes` (common_key.go), with the in-place mutation of
`*schema.ResourceData` made explicit: the result is the caller-visible state
after the call together with the diagnostics (`none` = success). Mirrors the
source step by step: derive the public key, marshal it, `SetId`, `Set`
public_key_pem, best-effort SSH conversion (empty strings when
`ssh.NewPublicKey` fails), `Set` the three SSH fields. -/
def setPublicKeyAttributes (d : ResourceState) (prvKey : GoPrivateKey) :
    ResourceState × Option String :=
  match privateKeyToPublicKey prvKey with
  | .error e => (d, some ("failed to get public key from private key: " ++ e))
  | .ok pubKey =>
    match marshalPKIXPublicKey pubKey with
    | .error e => (d, some ("failed to marshal public key: " ++ e))
    | .ok pubKeyBytes =>
      let d1 := d.setId (hashForState pubKeyBytes)
      match d1.set "public_key_pem" (pemEncodeToMemory PEMPreamble.PreamblePublicKey.toStr pubKeyBytes) with
      | .error e => (d1, some ("error setting value on key 'public_key_pem': " ++ e))
      | .ok d2 =>
        let sshFields : String × String × String :=
          match sshNewPublicKey pubKey with
          | .error _ => ("", "", "")
          | .ok sshPubKey =>
              (sshMarshalAuthorizedKey sshPubKey, sshFingerprintLegacyMD5 sshPubKey,
               sshFingerprintSHA256 sshPubKey)
        match d2.set "public_key_openssh" sshFields.1 with
        | .error e => (d2, some ("error setting value on key 'public_key_openssh': " ++ e))
        | .ok d3 =>
          match d3.set "public_key_fingerprint_md5" sshFields.2.1 with
          | .error e => (d3, some ("error setting value on key 'public_key_fingerprint_md5': " ++ e))
          | .ok d4 =>
            match d4.set "public_key_fingerprint_sha256" sshFields.2.2 with
            | .error e => (d4, some ("error setting value on key 'public_key_fingerprint_sha256': " ++ e))
            | .ok d5 => (d5, none)

/-! ## Self-signed certificate issuance -/

/-- Modelled from the spec: the fixed RSA test key behind `testPrivateKeyPEM`
(defined in a test util file not under `src/`): a 2048-bit RSA key, given
entropy seed 0 in the symbolic model. -/
def testPrivateKey : GoPrivateKey := .rsaPtr ⟨2048, 0⟩

/-- The known-answer Subject Key Identifier bytes of the fixed test key, from
`TestAccSelfSignedCertSetSubjectKeyID`. -/
def testSubjectKeyIdVector : List Nat :=
  [207, 81, 38, 63, 172, 18, 241, 109, 195, 169, 6, 109, 237, 6, 18, 214, 52, 231, 17, 222]

/-- Modelled from the spec: the SHA-1 digest of a public key's DER encoding.
The hash primitive and concrete key bytes live outside `src/`, so the digest
is symbolic: the spec and test record the concrete digest of the fixed test
key; other keys map to a distinct placeholder digest determined by the key. -/
def sha1OfPublicKeyDER : GoPublicKey → List Nat
  | .rsa ⟨2048, 0⟩ => testSubjectKeyIdVector
  | .rsa k => [0, k.bits, k.seed]
  | .ecdsa k => [1, k.seed]
  | .ed25519 k => [2, k.seed]
  | .foreign n => [3, n.length]

/-- Modelled from the spec: the slice of an issued X.509 certificate the
claims touch. `subjectKeyId` is `[]` when no Subject Key Identifier is
attached. -/
structure Certificate where
  notBefore : Int
  notAfter : Int
  subjectKeyId : List Nat
deriving DecidableEq, Repr

/-- Modelled from the spec: the schema-level validation of the self-signed
certificate resource (not under `src/`): `validity_period_hours` and
`early_renewal_hours` are validated with an at-least-0 bound, with the
message format pinned by `TestAccSelfSignedCert_InvalidConfigs`. Returns the
first validation diagnostic, or `none` when the spec is valid. -/
def validateCertificateSpec (spec : CertificateSpec) : Option String :=
  if spec.validityPeriodHours < 0 then
    some ("expected validity_period_hours to be at least (0), got " ++ toString spec.validityPeriodHours)
  else if spec.earlyRenewalHours < 0 then
    some ("expected early_renewal_hours to be at least (0), got " ++ toString spec.earlyRenewalHours)
  else
    none

/-- Modelled from the spec: self-signed certificate issuance (resource code
not under `src/`): validation runs before any cryptographic work; NotBefore =
now, NotAfter = now + ValidityHours; when `SetSubjectKeyID` is set the
Subject Key Identifier is the SHA-1 digest of the subject public key's DER
encoding. -/
def createSelfSignedCert (spec : CertificateSpec) (prvKey : GoPrivateKey) (now : Int) :
    Except String Certificate :=
  match validateCertificateSpec spec with
  | some e => .error e
  | none =>
    match privateKeyToPublicKey prvKey with
    | .error e => .error ("failed to get public key from private key: " ++ e)
    | .ok pubKey =>
        .ok ⟨now, now + spec.validityPeriodHours,
             if spec.setSubjectKeyID then sha1OfPublicKeyDER pubKey else []⟩

/-- One full generate → export → parse → re-derive pass for an algorithm tag:
returns the parsed algorithm tag together with the public key derived before
export and the public key derived from the parsed key, or `none` when any
step fails. -/
def roundTrip (alg : Algorithm) (d : ResourceData) (seed encodedLen trailingLen : Nat) :
    Option (Algorithm × GoPublicKey × GoPublicKey) :=
  match keyGenerators alg d seed with
  | .error _ => none
  | .ok key =>
    match exportPrivateKeyPEM key encodedLen trailingLen with
    | .error _ => none
    | .ok pemBytes =>
      match parsePrivateKeyPEM pemBytes with
      | .error _ => none
      | .ok (key2, alg2) =>
        match privateKeyToPublicKey key, privateKeyToPublicKey key2 with
        | .ok pubBefore, .ok pubAfter => some (alg2, pubBefore, pubAfter)
        | _, _ => none

/-! ## Theorems -/

/-- Claim C1: for every issuance time, every spec with ValidityHours ≥ 0 and
EarlyRenewalHours ≥ 0, and every query time, `isCurrent` returns true iff
asOf < issuedAt + ValidityHours − EarlyRenewalHours; in particular with
Validity=10 and EarlyRenewal=2 it is true at issuedAt and at issuedAt+7h and
false at issuedAt+9h. -/
theorem isCurrent_spec (issuedAt asOf : Int) (spec : CertificateSpec)
    (hV : 0 ≤ spec.validityPeriodHours) (hE : 0 ≤ spec.earlyRenewalHours) :
    (isCurrent issuedAt spec asOf = true ↔
      asOf < issuedAt + spec.validityPeriodHours - spec.earlyRenewalHours)
    ∧ isCurrent issuedAt ⟨10, 2, false⟩ issuedAt = true
    ∧ isCurrent issuedAt ⟨10, 2, false⟩ (issuedAt + 7) = true
    ∧ isCurrent issuedAt ⟨10, 2, false⟩ (issuedAt + 9) = false := by
  refine ⟨by simp [isCurrent], ?_, ?_, ?_⟩ <;> simp [isCurrent] <;> omega

/-- Witness for `isCurrent_spec` at issuedAt = 0, asOf = 5, spec = ⟨10, 2⟩. -/
theorem isCurrent_spec_witness :
    (isCurrent 0 ⟨10, 2, false⟩ 5 = true ↔ (5 : Int) < 0 + 10 - 2)
    ∧ isCurrent 0 ⟨10, 2, false⟩ 0 = true
    ∧ isCurrent 0 ⟨10, 2, false⟩ (0 + 7) = true
    ∧ isCurrent 0 ⟨10, 2, false⟩ (0 + 9) = false :=
  isCurrent_spec 0 5 ⟨10, 2, false⟩ (by decide) (by decide)

/-- Claim C2: raising EarlyRenewalHours on an already-issued certificate is
evaluated against the stored issuance time: regeneration happens iff
asOf ≥ issuedAt + ValidityHours − E'; with issuance at T, Validity=10 and
asOf=T+4h, E'=3 keeps the certificate current while E'=9 makes it due for
renewal. -/
theorem needsRegeneration_spec (issuedAt asOf : Int) (spec : CertificateSpec) :
    (needsRegeneration issuedAt spec asOf = true ↔
      issuedAt + spec.validityPeriodHours - spec.earlyRenewalHours ≤ asOf)
    ∧ needsRegeneration issuedAt ⟨10, 3, false⟩ (issuedAt + 4) = false
    ∧ needsRegeneration issuedAt ⟨10, 9, false⟩ (issuedAt + 4) = true := by
  refine ⟨by simp [needsRegeneration, isCurrent], ?_, ?_⟩ <;>
    simp [needsRegeneration, isCurrent] <;> omega

/-- Claim C5: on every input from which no PEM block can be decoded,
`parsePrivateKeyPEM` returns an error whose message reports the count of
decoded bytes and the count of undecoded bytes; per the `pem.Decode`
contract the whole input is undecoded, so the reported decoded count is 0. -/
theorem parsePrivateKeyPEM_decode_failure (input : Bytes)
    (h : (pemDecode input).1 = none) :
    parsePrivateKeyPEM input =
      .error (decodeErrorMessage (input.length - (pemDecode input).2) (pemDecode input).2)
    ∧ (pemDecode input).2 = input.length
    ∧ input.length - (pemDecode input).2 = 0 := by
  cases input with
  | pemEncoded b e t => simp [pemDecode] at h
  | noPEM n => simp [parsePrivateKeyPEM, pemDecode, Bytes.length]

/-- Witness for `parsePrivateKeyPEM_decode_failure` on a 12-byte input with
no PEM block. -/
theorem parsePrivateKeyPEM_decode_failure_witness :
    parsePrivateKeyPEM (.noPEM 12) =
      .error (decodeErrorMessage ((Bytes.noPEM 12).length - (pemDecode (.noPEM 12)).2)
        (pemDecode (.noPEM 12)).2)
    ∧ (pemDecode (.noPEM 12)).2 = (Bytes.noPEM 12).length
    ∧ (Bytes.noPEM 12).length - (pemDecode (.noPEM 12)).2 = 0 :=
  parsePrivateKeyPEM_decode_failure (.noPEM 12) rfl

/-- Claim C6: ECDSA key generation with a curve tag outside
{P224, P256, P384, P521} fails with an error message listing the supported
curves, and each of the four supported curve tags dispatches to the matching
curve's generator. -/
theorem ecdsaKeyGenerator_curve_dispatch (d : ResourceData) (seed : Nat)
    (h : d.ecdsaCurve ∉ SupportedECDSACurves) :
    ecdsaKeyGenerator d seed =
      .error ("invalid ECDSA curve; supported values are: " ++ renderCurveList SupportedECDSACurves)
    ∧ (∀ d2 : ResourceData, ∀ s : Nat,
        (d2.ecdsaCurve = P224 → ecdsaKeyGenerator d2 s = .ok (.ecdsaPtr ⟨.p224, s⟩))
        ∧ (d2.ecdsaCurve = P256 → ecdsaKeyGenerator d2 s = .ok (.ecdsaPtr ⟨.p256, s⟩))
        ∧ (d2.ecdsaCurve = P384 → ecdsaKeyGenerator d2 s = .ok (.ecdsaPtr ⟨.p384, s⟩))
        ∧ (d2.ecdsaCurve = P521 → ecdsaKeyGenerator d2 s = .ok (.ecdsaPtr ⟨.p521, s⟩))) := by
  constructor
  · simp only [SupportedECDSACurves, List.mem_cons, List.not_mem_nil, or_false, not_or] at h
    obtain ⟨h1, h2, h3, h4⟩ := h
    simp [ecdsaKeyGenerator, h1, h2, h3, h4]
  · intro d2 s
    refine ⟨?_, ?_, ?_, ?_⟩ <;> intro hc <;>
      simp [ecdsaKeyGenerator, hc, P224, P256, P384, P521]

/-- Witness for `ecdsaKeyGenerator_curve_dispatch`: the unknown tag "P999"
fails with the supported-curve list, and "P224" dispatches to the P-224
generator. -/
theorem ecdsaKeyGenerator_curve_dispatch_witness :
    (⟨2048, "P999"⟩ : ResourceData).ecdsaCurve ∉ SupportedECDSACurves
    ∧ ecdsaKeyGenerator ⟨2048, "P999"⟩ 0 =
        .error ("invalid ECDSA curve; supported values are: " ++ renderCurveList SupportedECDSACurves)
    ∧ ecdsaKeyGenerator ⟨2048, "P224"⟩ 0 = .ok (.ecdsaPtr ⟨.p224, 0⟩) :=
  ⟨by decide,
   (ecdsaKeyGenerator_curve_dispatch ⟨2048, "P999"⟩ 0 (by decide)).1,
   ((ecdsaKeyGenerator_curve_dispatch ⟨2048, "P999"⟩ 0 (by decide)).2 ⟨2048, "P224"⟩ 0).1 rfl⟩

/-- Claim C7: issuance with ValidityHours < 0 or EarlyRenewalHours < 0 is
rejected with a validation error before any cryptographic work — for every
key and time, the result is the validation diagnostic naming the offending
field, the at-least-(0) bound, and the offending value. -/
theorem invalid_hours_rejected (spec1 spec2 : CertificateSpec)
    (key : GoPrivateKey) (now : Int)
    (h1 : spec1.validityPeriodHours < 0)
    (h2 : 0 ≤ spec2.validityPeriodHours) (h3 : spec2.earlyRenewalHours < 0) :
    createSelfSignedCert spec1 key now =
      .error ("expected validity_period_hours to be at least (0), got " ++ toString spec1.validityPeriodHours)
    ∧ createSelfSignedCert spec2 key now =
      .error ("expected early_renewal_hours to be at least (0), got " ++ toString spec2.earlyRenewalHours) := by
  constructor
  · simp [createSelfSignedCert, validateCertificateSpec, h1]
  · simp [createSelfSignedCert, validateCertificateSpec, h3, not_lt.mpr h2]

/-- Witness for `invalid_hours_rejected` at ValidityHours = −1 and at
(ValidityHours, EarlyRenewalHours) = (20, −10), matching the test configs. -/
theorem invalid_hours_rejected_witness :
    createSelfSignedCert ⟨-1, 0, true⟩ (.other "does not matter" false) 0 =
      .error "expected validity_period_hours to be at least (0), got -1"
    ∧ createSelfSignedCert ⟨20, -10, true⟩ (.other "does not matter" false) 0 =
      .error "expected early_renewal_hours to be at least (0), got -10" :=
  invalid_hours_rejected ⟨-1, 0, true⟩ ⟨20, -10, true⟩ (.other "does not matter" false) 0
    (by decide) (by decide) (by decide)

/-- Claim C8: with SetSubjectKeyID = true, the issued certificate's
SubjectKeyId equals the SHA-1 digest of the subject public key's DER
encoding, and for the fixed test private key that digest is the known-answer
vector cf 51 26 3f ac 12 f1 6d c3 a9 06 6d ed 06 12 d6 34 e7 11 de. -/
theorem subjectKeyId_is_sha1_of_der (spec : CertificateSpec) (key : GoPrivateKey)
    (pub : GoPublicKey) (now : Int) (cert : Certificate)
    (hFlag : spec.setSubjectKeyID = true)
    (hIssue : createSelfSignedCert spec key now = .ok cert)
    (hPub : privateKeyToPublicKey key = .ok pub) :
    cert.subjectKeyId = sha1OfPublicKeyDER pub
    ∧ sha1OfPublicKeyDER (GoPrivateKey.publicPart testPrivateKey) = testSubjectKeyIdVector := by
  refine ⟨?_, rfl⟩
  unfold createSelfSignedCert at hIssue
  cases hval : validateCertificateSpec spec with
  | some e => rw [hval] at hIssue; exact absurd hIssue (by simp)
  | none =>
    rw [hval, hPub] at hIssue
    simp only [Except.ok.injEq] at hIssue
    rw [← hIssue]
    simp [hFlag]

/-- Witness for `subjectKeyId_is_sha1_of_der`: issuing over the fixed test
key with SetSubjectKeyID = true yields the known-answer byte vector. -/
theorem subjectKeyId_is_sha1_of_der_witness :
    (⟨0, 1, testSubjectKeyIdVector⟩ : Certificate).subjectKeyId =
      sha1OfPublicKeyDER (.rsa ⟨2048, 0⟩)
    ∧ sha1OfPublicKeyDER (GoPrivateKey.publicPart testPrivateKey) = testSubjectKeyIdVector :=
  subjectKeyId_is_sha1_of_der ⟨1, 0, true⟩ testPrivateKey (.rsa ⟨2048, 0⟩) 0
    ⟨0, 1, testSubjectKeyIdVector⟩ rfl rfl rfl

/-- Helper: string append acts as list append on the underlying character
data. -/
theorem string_data_append (a b : String) : (a ++ b).data = a.data ++ b.data := rfl

/-- Helper: a PEM-encoded block is never the empty string. -/
theorem pemEncodeToMemory_ne_empty (label body : String) :
    pemEncodeToMemory label body ≠ "" := by
  intro h
  have hd : (pemEncodeToMemory label body).data = [] := by rw [h]
  rw [pemEncodeToMemory] at hd
  simp only [string_data_append, List.append_eq_nil] at hd
  exact (by decide : ¬ ("-----BEGIN " : String).data = []) hd.1.1.1.1.1.1

/-- Claim C3: for each of the three algorithm tags, generating a private key,
exporting it to PEM, and parsing the export with `parsePrivateKeyPEM` yields
the same algorithm tag, and the public key derived from the parsed key equals
the public key derived before export. -/
theorem generate_export_parse_roundTrip (alg : Algorithm) (d : ResourceData)
    (seed encodedLen trailingLen : Nat)
    (h : d.ecdsaCurve ∈ SupportedECDSACurves) :
    ∃ pub, roundTrip alg d seed encodedLen trailingLen = some (alg, pub, pub) := by
  cases alg with
  | RSA => exact ⟨.rsa ⟨d.rsaBits, seed⟩, rfl⟩
  | ED25519 => exact ⟨.ed25519 ⟨seed⟩, rfl⟩
  | ECDSA =>
    simp only [SupportedECDSACurves, List.mem_cons, List.not_mem_nil, or_false] at h
    rcases h with hc | hc | hc | hc
    · exact ⟨.ecdsa ⟨.p224, seed⟩, by
        simp [roundTrip, keyGenerators, ecdsaKeyGenerator, hc, P224,
          exportPrivateKeyPEM, parsePrivateKeyPEM, pemDecode, PEMBlockToPEMPreamble,
          keyParsers, parseECPrivateKey, privateKeyToAlgorithm, privateKeyToPublicKey,
          GoPrivateKey.isSignerType, GoPrivateKey.publicPart]⟩
    · exact ⟨.ecdsa ⟨.p256, seed⟩, by
        simp [roundTrip, keyGenerators, ecdsaKeyGenerator, hc, P224, P256,
          exportPrivateKeyPEM, parsePrivateKeyPEM, pemDecode, PEMBlockToPEMPreamble,
          keyParsers, parseECPrivateKey, privateKeyToAlgorithm, privateKeyToPublicKey,
          GoPrivateKey.isSignerType, GoPrivateKey.publicPart]⟩
    · exact ⟨.ecdsa ⟨.p384, seed⟩, by
        simp [roundTrip, keyGenerators, ecdsaKeyGenerator, hc, P224, P256, P384,
          exportPrivateKeyPEM, parsePrivateKeyPEM, pemDecode, PEMBlockToPEMPreamble,
          keyParsers, parseECPrivateKey, privateKeyToAlgorithm, privateKeyToPublicKey,
          GoPrivateKey.isSignerType, GoPrivateKey.publicPart]⟩
    · exact ⟨.ecdsa ⟨.p521, seed⟩, by
        simp [roundTrip, keyGenerators, ecdsaKeyGenerator, hc, P224, P256, P384, P521,
          exportPrivateKeyPEM, parsePrivateKeyPEM, pemDecode, PEMBlockToPEMPreamble,
          keyParsers, parseECPrivateKey, privateKeyToAlgorithm, privateKeyToPublicKey,
          GoPrivateKey.isSignerType, GoPrivateKey.publicPart]⟩

/-- Witness for `generate_export_parse_roundTrip` with ECDSA on curve P256. -/
theorem generate_export_parse_roundTrip_witness :
    (⟨2048, "P256"⟩ : ResourceData).ecdsaCurve ∈ SupportedECDSACurves
    ∧ ∃ pub, roundTrip .ECDSA ⟨2048, "P256"⟩ 0 1 0 = some (.ECDSA, pub, pub) :=
  ⟨by decide, generate_export_parse_roundTrip .ECDSA ⟨2048, "P256"⟩ 0 1 0 (by decide)⟩

/-- Claim C4: for an ECDSA private key on curve P-224,
`setPublicKeyAttributes` succeeds (no diagnostics) and sets the SSH
authorized-key and both fingerprint attributes to the empty string while
`public_key_pem` is set to a non-empty string. -/
theorem p224_degraded_ssh_output (d : ResourceState) (seed : Nat) :
    (setPublicKeyAttributes d (.ecdsaPtr ⟨.p224, seed⟩)).2 = none
    ∧ (setPublicKeyAttributes d (.ecdsaPtr ⟨.p224, seed⟩)).1.getAttr "public_key_openssh" = some ""
    ∧ (setPublicKeyAttributes d (.ecdsaPtr ⟨.p224, seed⟩)).1.getAttr "public_key_fingerprint_md5" = some ""
    ∧ (setPublicKeyAttributes d (.ecdsaPtr ⟨.p224, seed⟩)).1.getAttr "public_key_fingerprint_sha256" = some ""
    ∧ ∃ s, (setPublicKeyAttributes d (.ecdsaPtr ⟨.p224, seed⟩)).1.getAttr "public_key_pem" = some s
        ∧ s ≠ "" := by
  refine ⟨?_, ?_, ?_, ?_, ?_⟩ <;>
    simp [setPublicKeyAttributes, privateKeyToPublicKey, GoPrivateKey.isSignerType,
      GoPrivateKey.publicPart, marshalPKIXPublicKey, ResourceState.set,
      publicKeySchemaKeys, ResourceState.setId, ResourceState.getAttr,
      sshNewPublicKey, sshRepresentable, List.lookup, PEMPreamble.toStr]
  exact pemEncodeToMemory_ne_empty _ _

/-- Claim C9: whenever `setPublicKeyAttributes` returns an error, the
caller-visible state is unchanged: no resource identifier and no public-key
attribute has been set. -/
theorem setPublicKeyAttributes_atomic_on_error (d : ResourceState) (prvKey : GoPrivateKey)
    (h : (setPublicKeyAttributes d prvKey).2 ≠ none) :
    (setPublicKeyAttributes d prvKey).1 = d := by
  cases prvKey with
  | rsaPtr k =>
    exact absurd (by simp [setPublicKeyAttributes, privateKeyToPublicKey,
      GoPrivateKey.isSignerType, GoPrivateKey.publicPart, marshalPKIXPublicKey,
      ResourceState.set, publicKeySchemaKeys, sshNewPublicKey, sshRepresentable]) h
  | rsaVal k =>
    simp [setPublicKeyAttributes, privateKeyToPublicKey, GoPrivateKey.isSignerType]
  | ecdsaPtr k =>
    refine absurd ?_ h
    simp only [setPublicKeyAttributes, privateKeyToPublicKey, GoPrivateKey.isSignerType,
      GoPrivateKey.publicPart, marshalPKIXPublicKey]
    cases hssh : sshNewPublicKey (.ecdsa k) <;>
      simp [hssh, ResourceState.set, publicKeySchemaKeys]
  | ecdsaVal k =>
    simp [setPublicKeyAttributes, privateKeyToPublicKey, GoPrivateKey.isSignerType]
  | ed25519Val k =>
    exact absurd (by simp [setPublicKeyAttributes, privateKeyToPublicKey,
      GoPrivateKey.isSignerType, GoPrivateKey.publicPart, marshalPKIXPublicKey,
      ResourceState.set, publicKeySchemaKeys, sshNewPublicKey, sshRepresentable]) h
  | ed25519Ptr k =>
    exact absurd (by simp [setPublicKeyAttributes, privateKeyToPublicKey,
      GoPrivateKey.isSignerType, GoPrivateKey.publicPart, marshalPKIXPublicKey,
      ResourceState.set, publicKeySchemaKeys, sshNewPublicKey, sshRepresentable]) h
  | other n s =>
    cases s <;>
      simp [setPublicKeyAttributes, privateKeyToPublicKey, GoPrivateKey.isSignerType,
        GoPrivateKey.publicPart, marshalPKIXPublicKey]

/-- Witness for `setPublicKeyAttributes_atomic_on_error`: a value-form
`rsa.PrivateKey` makes the call fail, leaving the empty state untouched. -/
theorem setPublicKeyAttributes_atomic_on_error_witness :
    (setPublicKeyAttributes ⟨none, []⟩ (.rsaVal ⟨2048, 1⟩)).2 ≠ none
    ∧ (setPublicKeyAttributes ⟨none, []⟩ (.rsaVal ⟨2048, 1⟩)).1 = ⟨none, []⟩ :=
  ⟨by decide, setPublicKeyAttributes_atomic_on_error ⟨none, []⟩ (.rsaVal ⟨2048, 1⟩) (by decide)⟩

/-- Claim C10: `privateKeyToAlgorithm` accepts strictly more key shapes than
`privateKeyToPublicKey`: value-form `rsa.PrivateKey` and `ecdsa.PrivateKey`
inputs are identified by algorithm but rejected by public-key derivation
(they do not implement `crypto.Signer`), while every key returned by a
registered parser in `keyParsers` succeeds under both operations. -/
theorem privateKeyToAlgorithm_wider_than_publicKey
    (kr : RSAKeyData) (ke : ECDSAKeyData)
    (p : PEMPreamble) (parseFn : DERBytes → Except String GoPrivateKey)
    (der : DERBytes) (key : GoPrivateKey)
    (hp : keyParsers p = some parseFn) (hk : parseFn der = .ok key) :
    privateKeyToAlgorithm (.rsaVal kr) = .ok .RSA
    ∧ (∃ e, privateKeyToPublicKey (.rsaVal kr) = .error e)
    ∧ privateKeyToAlgorithm (.ecdsaVal ke) = .ok .ECDSA
    ∧ (∃ e, privateKeyToPublicKey (.ecdsaVal ke) = .error e)
    ∧ (∃ a, privateKeyToAlgorithm key = .ok a)
    ∧ (∃ pub, privateKeyToPublicKey key = .ok pub) := by
  refine ⟨rfl, ⟨_, rfl⟩, rfl, ⟨_, rfl⟩, ?_, ?_⟩ <;>
  · cases p <;> simp only [keyParsers, Option.some.injEq, reduceCtorEq] at hp <;>
      subst hp <;> cases der <;>
      simp only [parsePKCS1PrivateKey, parseECPrivateKey, parsePKCS8PrivateKey,
        Except.ok.injEq, reduceCtorEq] at hk <;>
      subst hk <;>
      exact ⟨_, rfl⟩

/-- Witness for `privateKeyToAlgorithm_wider_than_publicKey`: the PKCS8
parser on an ED25519 payload. -/
theorem privateKeyToAlgorithm_wider_than_publicKey_witness :
    privateKeyToAlgorithm (.rsaVal ⟨2048, 0⟩) = .ok .RSA
    ∧ (∃ e, privateKeyToPublicKey (.rsaVal ⟨2048, 0⟩) = .error e)
    ∧ privateKeyToAlgorithm (.ecdsaVal ⟨.p256, 0⟩) = .ok .ECDSA
    ∧ (∃ e, privateKeyToPublicKey (.ecdsaVal ⟨.p256, 0⟩) = .error e)
    ∧ (∃ a, privateKeyToAlgorithm (.ed25519Val ⟨0⟩) = .ok a)
    ∧ (∃ pub, privateKeyToPublicKey (.ed25519Val ⟨0⟩) = .ok pub) :=
  privateKeyToAlgorithm_wider_than_publicKey ⟨2048, 0⟩ ⟨.p256, 0⟩
    .PreamblePrivateKeyPKCS8 parsePKCS8PrivateKey (.pkcs8Ed25519 ⟨0⟩) (.ed25519Val ⟨0⟩)
    rfl rfl

end TLSProvider
